import Mathlib

/-!
Verification of the praktichni CRUD/auth service (prakt3.py, prakt4.py, prakt5.py).

The three Flask applications are embedded shallowly: each HTTP handler becomes a
pure function from its (already routed and parsed) request data and a database
state to a response paired with the successor state.  The SQLite database is a
record of lists of rows; autoincremented primary keys are modelled by explicit
counters.  prakt5.py is the "Users" variant (auth + shops/products/tags); its
shop/product/tag/link handlers are textually identical to those of prakt3.py,
so the one embedding covers both files.  prakt4.py (stores/items) is embedded
separately.

External collaborators are modelled at their interface, symbolically:
werkzeug's salted password hash is a term `⟨salt, password⟩` whose check
compares the embedded password, and the JWT signature is the tuple
`(secret, subject, issuedAt, expiresAt)` — equality of symbolic terms models
collision-free MACs/hashes.  Note that SQLite does not enforce the declared
foreign-key constraints by default and no handler of prakt5.py/prakt3.py checks
`shop_id` against the shops table, so product creation is embedded without a
referential check, faithful to the code's runtime behaviour.
-/

namespace Praktichni

/-! ## Rows of the prakt5/prakt3 schema -/

/-- Symbolic model of a werkzeug salted password hash: the term
`pbkdf2(salt, password)`.  Only its interface matters to the handlers:
`checkPasswordHash (generatePasswordHash salt pw) pw'` holds iff `pw' = pw`.
The plaintext is a component of the symbolic term, not a stored string. -/
structure PasswordHash where
  salt : Nat
  pw : String
deriving Repr, DecidableEq

/-- Models werkzeug `generate_password_hash` with a per-call salt. -/
def generatePasswordHash (salt : Nat) (pw : String) : PasswordHash :=
  ⟨salt, pw⟩

/-- Models werkzeug `check_password_hash`. -/
def checkPasswordHash (h : PasswordHash) (pw : String) : Bool :=
  h.pw == pw

/-- A row of the `users` table of prakt5.py. -/
structure UserRow where
  id : Nat
  username : String
  password : PasswordHash
deriving Repr, DecidableEq

/-- A row of the `shops` table. -/
structure ShopRow where
  id : Nat
  title : String
deriving Repr, DecidableEq

/-- A row of the `products` table.  `cost` is a float in the source; no handler
computes with it, so it is carried as an integer-valued opaque payload. -/
structure ProductRow where
  id : Nat
  title : String
  cost : Int
  shop_id : Nat
deriving Repr, DecidableEq

/-- A row of the `tags` table. -/
structure TagRow where
  id : Nat
  name : String
deriving Repr, DecidableEq

/-- The database state of prakt5.py (prakt3.py uses the same schema minus
`users`).  `productTags` is the association table `product_tags`; its rows are
`(product_id, tag_id)` pairs.  The `next*` counters model SQLite's integer
primary-key autoincrement, and `nextSalt` models werkzeug's per-call random
salt source. -/
structure DBState where
  users : List UserRow
  shops : List ShopRow
  products : List ProductRow
  tags : List TagRow
  productTags : List (Nat × Nat)
  nextUserId : Nat
  nextShopId : Nat
  nextProductId : Nat
  nextTagId : Nat
  nextSalt : Nat
deriving Repr, DecidableEq

/-- The empty database produced by `db.create_all()` on a fresh file. -/
def emptyDB : DBState :=
  { users := [], shops := [], products := [], tags := [], productTags := []
    nextUserId := 1, nextShopId := 1, nextProductId := 1, nextTagId := 1
    nextSalt := 0 }

/-! ## Tokens (flask_jwt_extended, modelled at its interface) -/

/-- Modelled from the spec: flask_jwt_extended's token contents — "a signed,
time-bounded claim {subject: user id, issued_at, expires_at} verified
statelessly".  The signature is the symbolic MAC term
`(secret, subject, issuedAt, expiresAt)`. -/
structure Token where
  sub : Nat
  iat : Nat
  exp : Nat
  sig : String × Nat × Nat × Nat
deriving Repr, DecidableEq

/-- A token correctly signed over its own payload with `secret`. -/
def signToken (secret : String) (sub iat exp : Nat) : Token :=
  { sub := sub, iat := iat, exp := exp, sig := (secret, sub, iat, exp) }

/-- Models `create_access_token(identity=uid)`: issued at `now` with the
configured TTL. -/
def createAccessToken (secret : String) (now ttl : Nat) (uid : Nat) : Token :=
  signToken secret uid now (now + ttl)

/-- The failure kinds of token verification. -/
inductive AuthFailure where
  | expired
  | signatureInvalid
deriving Repr, DecidableEq

/-- Modelled from the spec: flask_jwt_extended's verification —
"verification recomputes/validates the signature and checks the expiry
against current time".  The signature is checked first (JWT decoding
validates the signature before the claims). -/
def verifyToken (secret : String) (now : Nat) (t : Token) :
    Except AuthFailure Nat :=
  if t.sig ≠ (secret, t.sub, t.iat, t.exp) then .error .signatureInvalid
  else if t.exp ≤ now then .error .expired
  else .ok t.sub

/-! ## Responses -/

/-- The JSON bodies the handlers produce.  `.error` is the `{"error": …}`
shape, `.message` the `{"message": …}` shape, `.validationErrors` a
marshmallow field→message mapping, `.accessToken` the login body, and the
`dump` constructors carry the serialised entity of a 2xx read. -/
inductive RespBody where
  | message (m : String)
  | error (m : String)
  | validationErrors
  | accessToken (t : Token)
  | productDump (p : ProductRow) (tags : List TagRow)
  | shopDump (sh : ShopRow)
  | tagDump (t : TagRow)
  | itemDump (id : Nat) (name : String) (price : Int) (store_id : Nat)
  | listDump
  | notFoundDefault
deriving Repr, DecidableEq

/-- An HTTP response: status code and JSON body. -/
structure Response where
  status : Nat
  body : RespBody
deriving Repr, DecidableEq

/-- Models werkzeug `abort(404)` as raised by `first_or_404`/`get_or_404`. -/
def abort404 : Response := ⟨404, .notFoundDefault⟩

/-! ## Access gate (prakt5.py `ProtectedResource` / `jwt_required`) -/

/-- The `Authorization` header of a request: absent, or carrying a bearer
token. -/
inductive AuthHeader where
  | missing
  | bearer (t : Token)
deriving Repr, DecidableEq

/-- Response of the customised `@jwt.unauthorized_loader` (prakt5.py lines
95–97): missing header yields 401 `{"error": "Authorization header
missing"}`. -/
def missingTokenResponse : Response :=
  ⟨401, .error "Authorization header missing"⟩

/-- Modelled from the spec: the library default responses for a failing
bearer token ("On any failure kind, short-circuits the wrapped operation
and returns an authentication error"): expired → 401, bad signature → 422. -/
def tokenFailureResponse : AuthFailure → Response
  | .expired => ⟨401, .error "Token has expired"⟩
  | .signatureInvalid => ⟨422, .error "Signature verification failed"⟩

/-- The access gate `method_decorators = [jwt_required()]` wrapping every
handler of a `ProtectedResource`: the wrapped handler runs only on a
successfully verified token, and a failure leaves the state untouched. -/
def jwtRequired (secret : String) (now : Nat) (hdr : AuthHeader)
    (handler : Nat → DBState → Response × DBState) (s : DBState) :
    Response × DBState :=
  match hdr with
  | .missing => (missingTokenResponse, s)
  | .bearer t =>
    match verifyToken secret now t with
    | .error e => (tokenFailureResponse e, s)
    | .ok uid => handler uid s

/-! ## prakt5.py request payloads (after JSON parsing)

marshmallow validation is modelled by `Option` fields: `none` is an absent
(or mistyped) field, and a `required=True` field that is `none` makes
`Schema.load` raise `ValidationError`, returned as a 400. -/

/-- Body of POST /register and POST /login (`UserSchema`). -/
structure UserPayload where
  username : Option String
  password : Option String
deriving Repr, DecidableEq

/-- Body of POST /shops (`ShopSchema`; only `title` is loadable). -/
structure ShopPayload where
  title : Option String
deriving Repr, DecidableEq

/-- Body of POST /tags (`TagSchema`). -/
structure TagPayload where
  name : Option String
deriving Repr, DecidableEq

/-- Body of POST /products (`ProductSchema`): `title`, `cost`, `shop_id`
required, `tag_ids` optional. -/
structure ProductPayload where
  title : Option String
  cost : Option Int
  shop_id : Option Nat
  tag_ids : Option (List Nat)
deriving Repr, DecidableEq

/-! ## prakt5.py handlers (identical handler bodies in prakt3.py) -/

/-- `RegisterResource.post` (prakt5.py lines 99–116). -/
def registerPost (p : UserPayload) (s : DBState) : Response × DBState :=
  match p.username, p.password with
  | some u, some pw =>
    if s.users.any (fun x => x.username == u) then
      (⟨409, .message "Username already exists"⟩, s)
    else
      let newUser : UserRow :=
        { id := s.nextUserId, username := u
          password := generatePasswordHash s.nextSalt pw }
      (⟨201, .message "User registered"⟩,
       { s with users := s.users ++ [newUser]
                nextUserId := s.nextUserId + 1
                nextSalt := s.nextSalt + 1 })
  | _, _ => (⟨400, .validationErrors⟩, s)

/-- `LoginResource.post` (prakt5.py lines 118–131). -/
def loginPost (secret : String) (now ttl : Nat) (p : UserPayload)
    (s : DBState) : Response × DBState :=
  match p.username, p.password with
  | some u, some pw =>
    match s.users.find? (fun x => x.username == u) with
    | none => (⟨401, .message "Invalid credentials"⟩, s)
    | some user =>
      if checkPasswordHash user.password pw then
        (⟨200, .accessToken (createAccessToken secret now ttl user.id)⟩, s)
      else
        (⟨401, .message "Invalid credentials"⟩, s)
  | _, _ => (⟨400, .validationErrors⟩, s)

/-- The tags currently linked to product id `pid`, in association-row order
(`prod.tags` through the `product_tags` secondary). -/
def tagsOfProduct (s : DBState) (pid : Nat) : List TagRow :=
  (s.productTags.filter (fun pt => pt.1 == pid)).filterMap
    (fun pt => s.tags.find? (fun t => t.id == pt.2))

/-- `ProductResource.get` (prakt5.py lines 137–141). -/
def productGet (title : String) (s : DBState) : Response × DBState :=
  match s.products.find? (fun p => p.title == title) with
  | none => (⟨404, .message "Product not found"⟩, s)
  | some prod => (⟨200, .productDump prod (tagsOfProduct s prod.id)⟩, s)

/-- `ProductResource.delete` (prakt5.py lines 143–148; prakt3.py 84–89):
silently no-ops when the product is absent, always answers 200.  Deleting a
present product also deletes its `product_tags` association rows (SQLAlchemy
removes secondary-table rows referencing a deleted parent). -/
def productDelete (title : String) (s : DBState) : Response × DBState :=
  match s.products.find? (fun p => p.title == title) with
  | none => (⟨200, .message "Product deleted"⟩, s)
  | some prod =>
    (⟨200, .message "Product deleted"⟩,
     { s with products := s.products.filter (fun p => !(p.id == prod.id))
              productTags := s.productTags.filter (fun pt => !(pt.1 == prod.id)) })

/-- `ProductListResource.post` (prakt5.py lines 154–173; prakt3.py 96–115).
Note: the handler performs no existence check on `shop_id` (SQLite does not
enforce the declared foreign key by default); ids in `tag_ids` that resolve
to no tag are skipped without error. -/
def productListPost (p : ProductPayload) (s : DBState) : Response × DBState :=
  match p.title, p.cost, p.shop_id with
  | some title, some cost, some sid =>
    if s.products.any (fun x => x.title == title) then
      (⟨400, .message "Product already exists"⟩, s)
    else
      let tagIds := p.tag_ids.getD []
      let resolved := tagIds.filter (fun tid => s.tags.any (fun t => t.id == tid))
      let newProd : ProductRow :=
        { id := s.nextProductId, title := title, cost := cost, shop_id := sid }
      let s' :=
        { s with products := s.products ++ [newProd]
                 productTags :=
                   s.productTags ++ resolved.map (fun tid => (newProd.id, tid))
                 nextProductId := s.nextProductId + 1 }
      (⟨201, .productDump newProd (tagsOfProduct s' newProd.id)⟩, s')
  | _, _, _ => (⟨400, .validationErrors⟩, s)

/-- `ShopResource.delete` (prakt5.py lines 182–187): silent no-op when
absent, always 200. -/
def shopDelete (title : String) (s : DBState) : Response × DBState :=
  match s.shops.find? (fun sh => sh.title == title) with
  | none => (⟨200, .message "Shop deleted"⟩, s)
  | some shop =>
    (⟨200, .message "Shop deleted"⟩,
     { s with shops := s.shops.filter (fun sh => !(sh.id == shop.id)) })

/-- `ShopListResource.post` (prakt5.py lines 193–206; prakt3.py 135–148). -/
def shopListPost (p : ShopPayload) (s : DBState) : Response × DBState :=
  match p.title with
  | some title =>
    if s.shops.any (fun sh => sh.title == title) then
      (⟨400, .message "Shop already exists"⟩, s)
    else
      let newShop : ShopRow := { id := s.nextShopId, title := title }
      (⟨201, .shopDump newShop⟩,
       { s with shops := s.shops ++ [newShop], nextShopId := s.nextShopId + 1 })
  | none => (⟨400, .validationErrors⟩, s)

/-- `TagResource.delete` (prakt5.py lines 215–220): silent no-op when absent,
always 200.  Deleting a present tag also deletes its association rows. -/
def tagDelete (name : String) (s : DBState) : Response × DBState :=
  match s.tags.find? (fun t => t.name == name) with
  | none => (⟨200, .message "Tag deleted"⟩, s)
  | some tag =>
    (⟨200, .message "Tag deleted"⟩,
     { s with tags := s.tags.filter (fun t => !(t.id == tag.id))
              productTags := s.productTags.filter (fun pt => !(pt.2 == tag.id)) })

/-- `TagListResource.post` (prakt5.py lines 226–239). -/
def tagListPost (p : TagPayload) (s : DBState) : Response × DBState :=
  match p.name with
  | some name =>
    if s.tags.any (fun t => t.name == name) then
      (⟨400, .message "Tag already exists"⟩, s)
    else
      let newTag : TagRow := { id := s.nextTagId, name := name }
      (⟨201, .tagDump newTag⟩,
       { s with tags := s.tags ++ [newTag], nextTagId := s.nextTagId + 1 })
  | none => (⟨400, .validationErrors⟩, s)

/-- `ProductTagLinkResource.post` (prakt5.py lines 242–248; prakt3.py
184–190): 404 via `first_or_404`/`get_or_404` when the title or tag id does
not resolve; otherwise inserts the `(product_id, tag_id)` pair only if it is
not already present, and answers 200 either way. -/
def linkPost (title : String) (tag_id : Nat) (s : DBState) :
    Response × DBState :=
  match s.products.find? (fun p => p.title == title) with
  | none => (abort404, s)
  | some prod =>
    match s.tags.find? (fun t => t.id == tag_id) with
    | none => (abort404, s)
    | some _tag =>
      if (s.productTags.filter
            (fun pt => pt.1 == prod.id && pt.2 == tag_id)).isEmpty then
        (⟨200, .message "Tag linked to product"⟩,
         { s with productTags := s.productTags ++ [(prod.id, tag_id)] })
      else
        (⟨200, .message "Tag linked to product"⟩, s)

/-- `ProductTagLinkResource.delete` (prakt5.py lines 250–256; prakt3.py
192–198): 404 when either id does not resolve; removes the association rows
for the pair if present (`remove` issues a DELETE matching both columns),
no-op otherwise, and answers 200 either way. -/
def unlinkPost (title : String) (tag_id : Nat) (s : DBState) :
    Response × DBState :=
  match s.products.find? (fun p => p.title == title) with
  | none => (abort404, s)
  | some prod =>
    match s.tags.find? (fun t => t.id == tag_id) with
    | none => (abort404, s)
    | some _tag =>
      if (s.productTags.filter
            (fun pt => pt.1 == prod.id && pt.2 == tag_id)).isEmpty then
        (⟨200, .message "Tag unlinked from product"⟩, s)
      else
        (⟨200, .message "Tag unlinked from product"⟩,
         { s with productTags := s.productTags.filter
                    (fun pt => !(pt.1 == prod.id && pt.2 == tag_id)) })

/-- The number of `(pid, tid)` rows in the association table. -/
def pairCount (s : DBState) (pid tid : Nat) : Nat :=
  (s.productTags.filter (fun pt => pt.1 == pid && pt.2 == tid)).length

/-! ## prakt4.py: the Store/Item variant -/

/-- A row of the `stores` table of prakt4.py. -/
structure StoreRow where
  id : Nat
  name : String
deriving Repr, DecidableEq

/-- A row of the `items` table of prakt4.py. -/
structure ItemRow where
  id : Nat
  name : String
  price : Int
  store_id : Nat
deriving Repr, DecidableEq

/-- The database state of prakt4.py. -/
structure StoreState where
  stores : List StoreRow
  items : List ItemRow
  nextStoreId : Nat
  nextItemId : Nat
deriving Repr, DecidableEq

/-- The empty prakt4 database. -/
def emptyStoreState : StoreState :=
  { stores := [], items := [], nextStoreId := 1, nextItemId := 1 }

/-- `StoreResource.delete` (prakt4.py lines 61–65): `get_or_404` aborts with
404 before any deletion when the store is absent. -/
def storeDelete (store_id : Nat) (s : StoreState) : Response × StoreState :=
  match s.stores.find? (fun st => st.id == store_id) with
  | none => (abort404, s)
  | some store =>
    (⟨200, .message "Store deleted"⟩,
     { s with stores := s.stores.filter (fun st => !(st.id == store.id)) })

/-- `ItemResource.delete` (prakt4.py lines 89–93): `get_or_404` aborts with
404 before any deletion when the item is absent. -/
def itemDelete (item_id : Nat) (s : StoreState) : Response × StoreState :=
  match s.items.find? (fun it => it.id == item_id) with
  | none => (abort404, s)
  | some item =>
    (⟨200, .message "Item deleted"⟩,
     { s with items := s.items.filter (fun it => !(it.id == item.id)) })

/-- The raw JSON body of PUT /item/<id> (and POST /item), before `ItemSchema`
validation: `none` is an absent (or mistyped) field.  `ItemSchema` marks
`name`, `price` and `store_id` all `required=True`. -/
structure ItemPayload where
  name : Option String
  price : Option Int
  store_id : Option Nat
deriving Repr, DecidableEq

/-- `ItemResource.put` (prakt4.py lines 95–102) together with its
`@item_blp.arguments(ItemSchema)` decorator: the schema requires `name`,
`price` and `store_id`, so a body missing any of them is rejected with 422
before the handler runs and nothing changes.  On a validated body the
handler assigns `item.name` and `item.price` (the `.get` defaults at lines
99–100 can never fire: both keys are present in every validated body) and
never assigns `id` or `store_id` — the body's `store_id` is ignored. -/
def itemPut (item_id : Nat) (body : ItemPayload) (s : StoreState) :
    Response × StoreState :=
  match body.name, body.price, body.store_id with
  | some name, some price, some _sid =>
    match s.items.find? (fun it => it.id == item_id) with
    | none => (abort404, s)
    | some item =>
      let item' : ItemRow := { item with name := name, price := price }
      (⟨200, .itemDump item'.id item'.name item'.price item'.store_id⟩,
       { s with items := s.items.map (fun it => if it.id == item_id then
           { it with name := name, price := price }
         else it) })
  | _, _, _ => (⟨422, .validationErrors⟩, s)

/-- `ItemListResource.post` (prakt4.py lines 108–114): aborts with 400
"Store not found." when `store_id` resolves to no store; otherwise inserts
the item.  The arguments arrive validated by `ItemSchema` (all required). -/
def itemListPost (name : String) (price : Int) (store_id : Nat)
    (s : StoreState) : Response × StoreState :=
  if s.stores.any (fun st => st.id == store_id) then
    let newItem : ItemRow :=
      { id := s.nextItemId, name := name, price := price, store_id := store_id }
    (⟨201, .itemDump newItem.id newItem.name newItem.price newItem.store_id⟩,
     { s with items := s.items ++ [newItem], nextItemId := s.nextItemId + 1 })
  else
    (⟨400, .message "Store not found."⟩, s)

/-! ## Concrete states used by the witnesses -/

/-- A small populated database: one shop, one product in it, one tag, no
association rows yet. -/
def demoDB : DBState :=
  { users := [], shops := [⟨1, "Acme"⟩], products := [⟨1, "Widget", 10, 1⟩]
    tags := [⟨1, "sale"⟩], productTags := []
    nextUserId := 1, nextShopId := 2, nextProductId := 2, nextTagId := 2
    nextSalt := 0 }

/-- A small populated prakt4 database: one store, one item in it. -/
def demoStore : StoreState :=
  { stores := [⟨1, "Main"⟩], items := [⟨1, "Hammer", 15, 1⟩]
    nextStoreId := 2, nextItemId := 2 }

/-! ## Theorems -/

/-- C2: on a protected route, a missing bearer token yields 401 with body
`{"error": "Authorization header missing"}`, the wrapped handler is never
invoked (the result does not depend on it), and the state is returned
unchanged. -/
theorem gate_missing_header_short_circuits (secret : String) (now : Nat)
    (handler : Nat → DBState → Response × DBState) (s : DBState) :
    jwtRequired secret now .missing handler s =
      (⟨401, .error "Authorization header missing"⟩, s) := rfl

/-- C5: link and unlink answer 404 and leave the state unchanged whenever the
product title or the tag id does not resolve to an existing row. -/
theorem link_unlink_notfound (s : DBState) (title : String) (tag_id : Nat)
    (h : s.products.find? (fun p => p.title == title) = none ∨
         s.tags.find? (fun t => t.id == tag_id) = none) :
    linkPost title tag_id s = (abort404, s) ∧
    unlinkPost title tag_id s = (abort404, s) := by
  rcases h with h | h
  · constructor <;> simp [linkPost, unlinkPost, h]
  · constructor <;>
      · rcases hp : s.products.find? (fun p => p.title == title) with _ | prod <;>
          simp [linkPost, unlinkPost, hp, h]

/-- Witness for C5 at a concrete input: neither "Ghost" nor tag 7 exists in
`demoDB`. -/
theorem link_unlink_notfound_witness :
    linkPost "Ghost" 7 demoDB = (abort404, demoDB) ∧
    unlinkPost "Ghost" 7 demoDB = (abort404, demoDB) :=
  link_unlink_notfound demoDB "Ghost" 7 (Or.inl (by decide))

/-- C6: deleting an absent Product, Shop or Tag (prakt5.py/prakt3.py) answers
200 and changes nothing, while deleting an absent Store or Item (prakt4.py)
aborts with 404 before any deletion, the state likewise unchanged. -/
theorem delete_absent_semantics (s : DBState) (s4 : StoreState)
    (title shopTitle tagName : String) (store_id item_id : Nat) :
    (s.products.find? (fun p => p.title == title) = none →
      productDelete title s = (⟨200, .message "Product deleted"⟩, s)) ∧
    (s.shops.find? (fun sh => sh.title == shopTitle) = none →
      shopDelete shopTitle s = (⟨200, .message "Shop deleted"⟩, s)) ∧
    (s.tags.find? (fun t => t.name == tagName) = none →
      tagDelete tagName s = (⟨200, .message "Tag deleted"⟩, s)) ∧
    (s4.stores.find? (fun st => st.id == store_id) = none →
      storeDelete store_id s4 = (abort404, s4)) ∧
    (s4.items.find? (fun it => it.id == item_id) = none →
      itemDelete item_id s4 = (abort404, s4)) := by
  refine ⟨?_, ?_, ?_, ?_, ?_⟩ <;> intro h <;>
    simp [productDelete, shopDelete, tagDelete, storeDelete, itemDelete, h]

/-- Witness for C6: every delete of an absent entity, evaluated on the empty
databases. -/
theorem delete_absent_semantics_witness :
    productDelete "w" emptyDB = (⟨200, .message "Product deleted"⟩, emptyDB) ∧
    shopDelete "w" emptyDB = (⟨200, .message "Shop deleted"⟩, emptyDB) ∧
    tagDelete "w" emptyDB = (⟨200, .message "Tag deleted"⟩, emptyDB) ∧
    storeDelete 1 emptyStoreState = (abort404, emptyStoreState) ∧
    itemDelete 1 emptyStoreState = (abort404, emptyStoreState) := by
  have h := delete_absent_semantics emptyDB emptyStoreState "w" "w" "w" 1 1
  exact ⟨h.1 (by decide), h.2.1 (by decide), h.2.2.1 (by decide),
         h.2.2.2.1 (by decide), h.2.2.2.2 (by decide)⟩

/-- Helper: a list filtered by `p` and then by the negation of `p` (or vice
versa) is empty. -/
theorem filter_not_filter_eq_nil {α : Type} (l : List α) (p : α → Bool) :
    (l.filter (fun a => !(p a))).filter p = [] := by
  induction l with
  | nil => rfl
  | cons a l ih =>
    by_cases h : p a = true <;> simp [List.filter_cons, h, ih]

/-- C1: with the product and tag both resolving, linking twice leaves exactly
one `(product_id, tag_id)` association row, unlinking twice leaves zero, a
link of an already-linked pair answers 200 without modifying the state, and an
unlink of a non-linked pair answers 200 without modifying the state.  The
hypothesis `hinv` is the composite-primary-key invariant of the
`product_tags` table (a pair occurs at most once). -/
theorem link_unlink_idempotent (s : DBState) (title : String) (tag_id : Nat)
    (prod : ProductRow) (tag : TagRow)
    (hp : s.products.find? (fun p => p.title == title) = some prod)
    (ht : s.tags.find? (fun t => t.id == tag_id) = some tag)
    (hinv : pairCount s prod.id tag_id ≤ 1) :
    pairCount (linkPost title tag_id (linkPost title tag_id s).2).2
        prod.id tag_id = 1 ∧
    pairCount (unlinkPost title tag_id (unlinkPost title tag_id s).2).2
        prod.id tag_id = 0 ∧
    (pairCount s prod.id tag_id ≠ 0 →
      linkPost title tag_id s = (⟨200, .message "Tag linked to product"⟩, s)) ∧
    (pairCount s prod.id tag_id = 0 →
      unlinkPost title tag_id s =
        (⟨200, .message "Tag unlinked from product"⟩, s)) := by
  rcases h0 : (s.productTags.filter
      (fun pt => pt.1 == prod.id && pt.2 == tag_id)).isEmpty with _ | _
  · -- some association row for the pair is already present
    have hne : pairCount s prod.id tag_id ≠ 0 := by
      simpa [pairCount, List.isEmpty_iff, List.length_eq_zero] using h0
    have h1 : pairCount s prod.id tag_id = 1 := by omega
    refine ⟨?_, ?_, ?_, ?_⟩
    · simp [linkPost, hp, ht, h0, h1]
    · simp only [unlinkPost, hp, ht, h0, Bool.false_eq_true, if_false]
      simp [pairCount, filter_not_filter_eq_nil]
    · intro _; simp [linkPost, hp, ht, h0]
    · intro h; exact absurd h hne
  · -- no association row for the pair yet
    have hnil : (s.productTags.filter
        (fun pt => pt.1 == prod.id && pt.2 == tag_id)) = [] := by
      simpa [List.isEmpty_iff] using h0
    refine ⟨?_, ?_, ?_, ?_⟩
    · simp [linkPost, hp, ht, h0, pairCount, List.filter_append, hnil]
    · simp [unlinkPost, hp, ht, h0, pairCount, hnil]
    · intro h
      exact absurd (by simp [pairCount, hnil]) h
    · intro _; simp [unlinkPost, hp, ht, h0]

/-- Witness for C1 on `demoDB` ("Widget" and tag 1 both exist, no pair
linked yet). -/
theorem link_unlink_idempotent_witness :
    pairCount (linkPost "Widget" 1 (linkPost "Widget" 1 demoDB).2).2 1 1 = 1 ∧
    pairCount (unlinkPost "Widget" 1 (unlinkPost "Widget" 1 demoDB).2).2
        1 1 = 0 ∧
    (pairCount demoDB 1 1 ≠ 0 →
      linkPost "Widget" 1 demoDB =
        (⟨200, .message "Tag linked to product"⟩, demoDB)) ∧
    (pairCount demoDB 1 1 = 0 →
      unlinkPost "Widget" 1 demoDB =
        (⟨200, .message "Tag unlinked from product"⟩, demoDB)) :=
  link_unlink_idempotent demoDB "Widget" 1 ⟨1, "Widget", 10, 1⟩ ⟨1, "sale"⟩
    (by decide) (by decide) (by decide)

/-- C7: when no shop carries `title`, the first create answers 201 and appends
exactly one row; a second create with the same title answers 400 "Shop
already exists" (the Conflict kind) and returns the state unchanged — the
shop rows after the failed call are exactly those after the first call, and
exactly one shop with that title exists. -/
theorem shop_create_conflict (s : DBState) (title : String)
    (h : ∀ sh ∈ s.shops, sh.title ≠ title) :
    (shopListPost ⟨some title⟩ s).1.status = 201 ∧
    (shopListPost ⟨some title⟩ s).2.shops =
      s.shops ++ [⟨s.nextShopId, title⟩] ∧
    shopListPost ⟨some title⟩ (shopListPost ⟨some title⟩ s).2 =
      (⟨400, .message "Shop already exists"⟩,
       (shopListPost ⟨some title⟩ s).2) ∧
    (shopListPost ⟨some title⟩ s).2.shops.countP
      (fun sh => sh.title == title) = 1 := by
  have hany : s.shops.any (fun sh => sh.title == title) = false := by
    rw [List.any_eq_false]
    intro sh hsh
    simpa using h sh hsh
  have hcount : s.shops.countP (fun sh => sh.title == title) = 0 := by
    rw [List.countP_eq_zero]
    intro sh hsh
    simpa using h sh hsh
  refine ⟨?_, ?_, ?_, ?_⟩
  · simp [shopListPost, hany]
  · simp [shopListPost, hany]
  · simp [shopListPost, hany, List.any_append]
  · simp [shopListPost, hany, List.countP_append, hcount]

/-- Witness for C7: creating "Acme" twice on the empty database. -/
theorem shop_create_conflict_witness :
    (shopListPost ⟨some "Acme"⟩ emptyDB).1.status = 201 ∧
    (shopListPost ⟨some "Acme"⟩ emptyDB).2.shops =
      emptyDB.shops ++ [⟨emptyDB.nextShopId, "Acme"⟩] ∧
    shopListPost ⟨some "Acme"⟩ (shopListPost ⟨some "Acme"⟩ emptyDB).2 =
      (⟨400, .message "Shop already exists"⟩,
       (shopListPost ⟨some "Acme"⟩ emptyDB).2) ∧
    (shopListPost ⟨some "Acme"⟩ emptyDB).2.shops.countP
      (fun sh => sh.title == "Acme") = 1 :=
  shop_create_conflict emptyDB "Acme" (by simp [emptyDB])

/-- C3: when `u` is not yet registered, `register` answers 201 and appends a
row whose password field is the salted hash of the plaintext (the users
table never receives the plaintext: the field holds a `PasswordHash`); a
subsequent login with the same credentials answers 200 carrying an access
token for the new user id; a login with any different password answers 401;
and registering the same username again answers 409 Conflict without
modifying the state. -/
theorem register_login_roundtrip (s : DBState) (u pw : String)
    (secret : String) (now ttl : Nat)
    (h : ∀ user ∈ s.users, user.username ≠ u) :
    (registerPost ⟨some u, some pw⟩ s).1.status = 201 ∧
    (registerPost ⟨some u, some pw⟩ s).2.users =
      s.users ++ [⟨s.nextUserId, u, generatePasswordHash s.nextSalt pw⟩] ∧
    loginPost secret now ttl ⟨some u, some pw⟩
        (registerPost ⟨some u, some pw⟩ s).2 =
      (⟨200, .accessToken (createAccessToken secret now ttl s.nextUserId)⟩,
       (registerPost ⟨some u, some pw⟩ s).2) ∧
    (∀ pw', pw' ≠ pw →
      loginPost secret now ttl ⟨some u, some pw'⟩
          (registerPost ⟨some u, some pw⟩ s).2 =
        (⟨401, .message "Invalid credentials"⟩,
         (registerPost ⟨some u, some pw⟩ s).2)) ∧
    registerPost ⟨some u, some pw⟩ (registerPost ⟨some u, some pw⟩ s).2 =
      (⟨409, .message "Username already exists"⟩,
       (registerPost ⟨some u, some pw⟩ s).2) := by
  have hany : s.users.any (fun x => x.username == u) = false := by
    rw [List.any_eq_false]
    intro x hx
    simpa using h x hx
  have hnone : s.users.find? (fun x => x.username == u) = none := by
    rw [List.find?_eq_none]
    intro x hx
    simpa using h x hx
  refine ⟨?_, ?_, ?_, ?_, ?_⟩
  · simp [registerPost, hany]
  · simp [registerPost, hany]
  · simp [registerPost, hany, loginPost, hnone, checkPasswordHash,
          generatePasswordHash]
  · intro pw' hpw
    simp [registerPost, hany, loginPost, hnone, checkPasswordHash,
          generatePasswordHash, Ne.symm hpw]
  · simp [registerPost, hany, List.any_append]

/-- Witness for C3: registering alice on the empty database, then logging in
with the right and a wrong password, then re-registering. -/
theorem register_login_roundtrip_witness :
    (registerPost ⟨some "alice", some "pw1"⟩ emptyDB).1.status = 201 ∧
    (registerPost ⟨some "alice", some "pw1"⟩ emptyDB).2.users =
      emptyDB.users ++
        [⟨emptyDB.nextUserId, "alice", generatePasswordHash emptyDB.nextSalt "pw1"⟩] ∧
    loginPost "super-secret-key" 0 3600 ⟨some "alice", some "pw1"⟩
        (registerPost ⟨some "alice", some "pw1"⟩ emptyDB).2 =
      (⟨200, .accessToken
          (createAccessToken "super-secret-key" 0 3600 emptyDB.nextUserId)⟩,
       (registerPost ⟨some "alice", some "pw1"⟩ emptyDB).2) ∧
    (∀ pw', pw' ≠ "pw1" →
      loginPost "super-secret-key" 0 3600 ⟨some "alice", some pw'⟩
          (registerPost ⟨some "alice", some "pw1"⟩ emptyDB).2 =
        (⟨401, .message "Invalid credentials"⟩,
         (registerPost ⟨some "alice", some "pw1"⟩ emptyDB).2)) ∧
    registerPost ⟨some "alice", some "pw1"⟩
        (registerPost ⟨some "alice", some "pw1"⟩ emptyDB).2 =
      (⟨409, .message "Username already exists"⟩,
       (registerPost ⟨some "alice", some "pw1"⟩ emptyDB).2) :=
  register_login_roundtrip emptyDB "alice" "pw1" "super-secret-key" 0 3600
    (by simp [emptyDB])

/-- C9: a Product-creation request with a fresh title and a `tag_ids` list is
answered 201 (no error for unresolved ids), the product row is inserted, and
the association table gains exactly one row per id of the list that resolves
to an existing tag — unresolved ids are silently skipped.  `hnd` is
well-formedness of the request (no duplicate ids, under which the composite
primary key of `product_tags` admits the insert). -/
theorem product_create_skips_unresolved_tags (s : DBState) (title : String)
    (cost : Int) (sid : Nat) (tagIds : List Nat)
    (h : ∀ p ∈ s.products, p.title ≠ title) (_hnd : tagIds.Nodup) :
    (productListPost ⟨some title, some cost, some sid, some tagIds⟩ s).1.status
      = 201 ∧
    (productListPost ⟨some title, some cost, some sid, some tagIds⟩ s).2.products
      = s.products ++ [⟨s.nextProductId, title, cost, sid⟩] ∧
    (productListPost
        ⟨some title, some cost, some sid, some tagIds⟩ s).2.productTags
      = s.productTags ++
          (tagIds.filter (fun tid => s.tags.any (fun t => t.id == tid))).map
            (fun tid => (s.nextProductId, tid)) := by
  have hany : s.products.any (fun x => x.title == title) = false := by
    rw [List.any_eq_false]
    intro p hp
    simpa using h p hp
  refine ⟨?_, ?_, ?_⟩ <;> simp [productListPost, hany]

/-- Witness for C9: creating "Widget2" on `demoDB` with `tag_ids = [1, 7]`
— tag 1 exists, tag 7 does not, so only `(2, 1)` is linked. -/
theorem product_create_skips_unresolved_tags_witness :
    (productListPost ⟨some "Widget2", some 5, some 1, some [1, 7]⟩
        demoDB).1.status = 201 ∧
    (productListPost ⟨some "Widget2", some 5, some 1, some [1, 7]⟩
        demoDB).2.products =
      demoDB.products ++ [⟨demoDB.nextProductId, "Widget2", 5, 1⟩] ∧
    (productListPost ⟨some "Widget2", some 5, some 1, some [1, 7]⟩
        demoDB).2.productTags =
      demoDB.productTags ++
        (([1, 7] : List Nat).filter
            (fun tid => demoDB.tags.any (fun t => t.id == tid))).map
          (fun tid => (demoDB.nextProductId, tid)) :=
  product_create_skips_unresolved_tags demoDB "Widget2" 5 1 [1, 7]
    (by decide) (by decide)

/-- C10, counterexample: a PUT body missing the required `name` field (here
`{"price": 42, "store_id": 1}` against the one-item database) is rejected by
`ItemSchema` validation with 422 before the handler runs — the present
`price` field is not applied (item 1 keeps price 15), so the PUT does not
behave as a partial update keeping the absent field and applying the present
ones. -/
theorem item_put_absent_field_counterexample :
    itemPut 1 ⟨none, some 42, some 1⟩ demoStore =
      (⟨422, .validationErrors⟩, demoStore) ∧
    (itemPut 1 ⟨none, some 42, some 1⟩ demoStore).2.items.map
        (fun it => it.price) = [15] :=
  ⟨rfl, rfl⟩

/-- C10, amended: a PUT body missing any of the required `name`, `price` or
`store_id` fields is rejected with a 422 validation error before the handler
runs, every item keeping all its previous values; and every update changes
at most the `name` and `price` fields — the stores table, and the `id` and
`store_id` of every item, are unchanged by every PUT (the validated body's
`store_id` is never applied). -/
theorem item_put_frame (s : StoreState) (item_id : Nat)
    (body : ItemPayload) :
    (itemPut item_id body s).2.stores = s.stores ∧
    (itemPut item_id body s).2.items.map
        (fun it => (it.id, it.store_id)) =
      s.items.map (fun it => (it.id, it.store_id)) ∧
    (body.name = none ∨ body.price = none ∨ body.store_id = none →
      itemPut item_id body s = (⟨422, .validationErrors⟩, s)) := by
  rcases body with ⟨n?, p?, sid?⟩
  rcases n? with _ | name
  · exact ⟨rfl, rfl, fun _ => rfl⟩
  · rcases p? with _ | price
    · exact ⟨rfl, rfl, fun _ => rfl⟩
    · rcases sid? with _ | sid
      · exact ⟨rfl, rfl, fun _ => rfl⟩
      · refine ⟨?_, ?_, ?_⟩
        · rcases hf : s.items.find? (fun it => it.id == item_id) with _ | item <;>
            simp [itemPut, hf]
        · rcases hf : s.items.find? (fun it => it.id == item_id) with _ | item
          · simp [itemPut, hf]
          · simp only [itemPut, hf, List.map_map]
            refine List.map_congr_left ?_
            intro it _
            simp only [Function.comp_apply]
            split <;> simp
        · intro h
          rcases h with h | h | h <;> simp at h

/-- Witness for the amended C10: a body with the `name` field absent against
the one-item store database — rejected 422, everything unchanged. -/
theorem item_put_frame_witness :
    (itemPut 1 ⟨none, some 42, some 1⟩ demoStore).2.stores =
      demoStore.stores ∧
    (itemPut 1 ⟨none, some 42, some 1⟩ demoStore).2.items.map
        (fun it => (it.id, it.store_id)) =
      demoStore.items.map (fun it => (it.id, it.store_id)) ∧
    itemPut 1 ⟨none, some 42, some 1⟩ demoStore =
      (⟨422, .validationErrors⟩, demoStore) := by
  have h := item_put_frame demoStore 1 ⟨none, some 42, some 1⟩
  exact ⟨h.1, h.2.1, h.2.2 (Or.inl rfl)⟩

/-- C8: token verification never accepts a token whose expiry has passed; at
the gate, an expired but well-signed token is answered 401 "Token has
expired" with the state unchanged, and a token signed with a secret
different from the server-held one is answered with the signature failure,
state unchanged — in both cases the result does not depend on the wrapped
handler, which therefore never executes. -/
theorem token_verification_rejects (secret secret' : String) (now : Nat)
    (t : Token) (handler : Nat → DBState → Response × DBState)
    (s : DBState) :
    (t.exp ≤ now → ∀ uid, verifyToken secret now t ≠ .ok uid) ∧
    (t.exp ≤ now → t.sig = (secret, t.sub, t.iat, t.exp) →
      jwtRequired secret now (.bearer t) handler s =
        (⟨401, .error "Token has expired"⟩, s)) ∧
    (secret' ≠ secret → t.sig = (secret', t.sub, t.iat, t.exp) →
      jwtRequired secret now (.bearer t) handler s =
        (⟨422, .error "Signature verification failed"⟩, s)) := by
  refine ⟨?_, ?_, ?_⟩
  · intro hexp uid
    simp only [verifyToken, if_pos hexp]
    split <;> simp
  · intro hexp hsig
    simp [jwtRequired, verifyToken, hsig, hexp, tokenFailureResponse]
  · intro hne hsig
    have hbad : t.sig ≠ (secret, t.sub, t.iat, t.exp) := by
      rw [hsig]
      intro hEq
      rw [Prod.ext_iff] at hEq
      exact hne hEq.1
    simp [jwtRequired, verifyToken, hbad, tokenFailureResponse]

/-- Witness for C8: at time 100, an expired token (issued at 0, expiring at
50) signed with the server secret, and a fresh token signed with an
attacker's key, both evaluated at the gate over `demoDB`. -/
theorem token_verification_rejects_witness :
    (∀ uid, verifyToken "super-secret-key" 100
        (signToken "super-secret-key" 1 0 50) ≠ .ok uid) ∧
    jwtRequired "super-secret-key" 100
        (.bearer (signToken "super-secret-key" 1 0 50))
        (fun _ st => (⟨200, .listDump⟩, st)) demoDB =
      (⟨401, .error "Token has expired"⟩, demoDB) ∧
    jwtRequired "super-secret-key" 100
        (.bearer (signToken "attacker-key" 1 0 500))
        (fun _ st => (⟨200, .listDump⟩, st)) demoDB =
      (⟨422, .error "Signature verification failed"⟩, demoDB) := by
  have h1 := token_verification_rejects "super-secret-key" "attacker-key" 100
    (signToken "super-secret-key" 1 0 50)
    (fun _ st => (⟨200, .listDump⟩, st)) demoDB
  have h2 := token_verification_rejects "super-secret-key" "attacker-key" 100
    (signToken "attacker-key" 1 0 500)
    (fun _ st => (⟨200, .listDump⟩, st)) demoDB
  exact ⟨h1.1 (by decide), h1.2.1 (by decide) rfl,
         h2.2.2 (by decide) rfl⟩

/-- C4, counterexample: on the empty database (no Shop exists at all) a
Product-creation request with `shop_id = 1` does not fail — it is answered
201 and the Product row is inserted with the dangling `shop_id`.  prakt5.py's
`ProductListResource.post` performs no shop lookup and SQLite does not
enforce the declared foreign key by default. -/
theorem product_create_dangling_shop_counterexample :
    emptyDB.shops = [] ∧
    (productListPost ⟨some "Widget", some 10, some 1, none⟩ emptyDB).1.status
      = 201 ∧
    (productListPost ⟨some "Widget", some 10, some 1, none⟩ emptyDB).2.products
      = [⟨1, "Widget", 10, 1⟩] := by
  refine ⟨rfl, rfl, rfl⟩

/-- C4, amended: only the Store/Item variant checks the foreign key — an
Item-creation request whose `store_id` resolves to no Store fails with 400
"Store not found." and inserts nothing, while the Product variant performs
no shop existence check: a Product-creation request with a fresh title is
answered 201 and the row is inserted with the supplied `shop_id` whether or
not it references an existing Shop. -/
theorem item_store_checked_product_unchecked (s4 : StoreState)
    (name : String) (price : Int) (store_id : Nat) (s : DBState)
    (title : String) (cost : Int) (sid : Nat)
    (h4 : s4.stores.any (fun st => st.id == store_id) = false)
    (h5 : ∀ p ∈ s.products, p.title ≠ title) :
    itemListPost name price store_id s4 =
      (⟨400, .message "Store not found."⟩, s4) ∧
    (productListPost ⟨some title, some cost, some sid, none⟩ s).1.status
      = 201 ∧
    (productListPost ⟨some title, some cost, some sid, none⟩ s).2.products
      = s.products ++ [⟨s.nextProductId, title, cost, sid⟩] := by
  have hany : s.products.any (fun x => x.title == title) = false := by
    rw [List.any_eq_false]
    intro p hp
    simpa using h5 p hp
  refine ⟨?_, ?_, ?_⟩
  · simp [itemListPost, h4]
  · simp [productListPost, hany]
  · simp [productListPost, hany]

/-- Witness for the amended C4: no store 9 exists in `demoStore`, and shop 9
does not exist in `demoDB` either, yet the product is created. -/
theorem item_store_checked_product_unchecked_witness :
    itemListPost "Nail" 2 9 demoStore =
      (⟨400, .message "Store not found."⟩, demoStore) ∧
    (productListPost ⟨some "Gadget", some 3, some 9, none⟩ demoDB).1.status
      = 201 ∧
    (productListPost ⟨some "Gadget", some 3, some 9, none⟩ demoDB).2.products
      = demoDB.products ++ [⟨demoDB.nextProductId, "Gadget", 3, 9⟩] :=
  item_store_checked_product_unchecked demoStore "Nail" 2 9 demoDB
    "Gadget" 3 9 (by decide) (by decide)

end Praktichni
